import Mathlib

/-!
Verification development for svg-to-wkt (src/svg-to-wkt.js).

The JavaScript source is shallowly embedded here.  Conventions:

- JavaScript numbers are idealised as exact rationals; the value NaN
  (produced by failed parses, arithmetic on undefined, or 0/0) and the
  value undefined are modelled by the extra constructors of `JVal`.
  Number-to-string conversion is modelled by exact decimal printing
  (`decStr`), which agrees with JavaScript on the terminating decimals
  that occur throughout this development.
- External collaborators (the path normaliser getPathData, the curve
  geometry engine getTotalLength / getPointAtLength, and the host trig
  and sqrt routines used by circle and ellipse) are modelled as the
  fields of an `Engine` record; theorems quantify over the engine.
- The process-wide configuration SVGtoWKT.PRECISION and SVGtoWKT.DENSITY
  is threaded through as explicit parameters `prec` and `dens`, read at
  each call exactly as the source reads the globals at call time.
-/

namespace SVGtoWKT

/-- JavaScript numeric values as they occur in the converter: `undefined`
(a missing attribute or argument), `NaN` (a failed numeric parse or an
arithmetic operation involving undefined or NaN), or a finite number,
idealised as an exact rational. -/
inductive JVal where
  | undefined : JVal
  | nan : JVal
  | val : ℚ → JVal
deriving DecidableEq, Repr

/-- Model of underscore isNumber: true for every value of number type,
including NaN; false for undefined. -/
def isNumber : JVal → Bool
  | .undefined => false
  | _ => true

/-- JavaScript unary minus: negates a finite number; undefined and NaN
give NaN. -/
def jneg : JVal → JVal
  | .val q => .val (-q)
  | _ => .nan

/-- JavaScript addition on numeric values: finite plus finite is exact;
any operand that is undefined or NaN gives NaN. -/
def jadd : JVal → JVal → JVal
  | .val a, .val b => .val (a + b)
  | _, _ => .nan

/-- JavaScript subtraction on numeric values. -/
def jsub : JVal → JVal → JVal
  | .val a, .val b => .val (a - b)
  | _, _ => .nan

/-- JavaScript multiplication on numeric values. -/
def jmul : JVal → JVal → JVal
  | .val a, .val b => .val (a * b)
  | _, _ => .nan

/-- JavaScript loose equality on the values compared by the source
(numbers and undefined): NaN is not equal to anything, including itself;
undefined equals undefined. -/
def jeq : JVal → JVal → Bool
  | .val a, .val b => a == b
  | .undefined, .undefined => true
  | _, _ => false

/-- Decimal digits of the fractional part of r / d, most significant
first, stopping when the remainder vanishes or the fuel runs out.  All
values printed in this development have short terminating expansions. -/
def fracDigits : ℕ → ℕ → ℕ → String
  | _, _, 0 => ""
  | r, d, fuel + 1 =>
    if r = 0 then ""
    else String.singleton (Nat.digitChar (r * 10 / d)) ++ fracDigits (r * 10 % d) d fuel

/-- Decimal rendering of a rational, as JavaScript renders the
corresponding number: optional minus sign, integer part, and a dot plus
fractional digits when the value is not an integer.  Negative zero does
not exist in the rational model, matching the fact that JavaScript
prints -0 as 0. -/
def decStr (q : ℚ) : String :=
  let n := q.num.natAbs
  let d := q.den
  let ip := n / d
  let fr := fracDigits (n % d) d 20
  let core := toString ip ++ (if fr = "" then "" else "." ++ fr)
  if q < 0 then "-" ++ core else core

/-- JavaScript string conversion of a numeric value, as used in template
literals, String(...) and Array join in the source. -/
def jstr : JVal → String
  | .undefined => "undefined"
  | .nan => "NaN"
  | .val q => decStr q

/-- JavaScript Array join with a separator (join() uses ","). -/
def joinSep (sep : String) : List String → String
  | [] => ""
  | [s] => s
  | s :: rest => s ++ sep ++ joinSep sep rest

/-- Math.round on a finite number: floor of the value plus one half. -/
def jsMathRound (q : ℚ) : ℤ := ⌊q + 1 / 2⌋

/-- Model of the source function round, called with PRECISION = prec:
Math.round(val * 10 ^ prec) / 10 ^ prec. -/
def roundQ (prec : ℕ) (q : ℚ) : ℚ :=
  (jsMathRound (q * 10 ^ prec) : ℚ) / 10 ^ prec

/-- The source round lifted to numeric values: Math.round(NaN) is NaN,
and rounding an undefined input also yields NaN. -/
def roundJ (prec : ℕ) : JVal → JVal
  | .val q => .val (roundQ prec q)
  | _ => .nan

/-- A point with JavaScript-number coordinates, modelling both
DOMPointReadOnly and the plain x/y records built during interpolation. -/
structure Pt where
  x : JVal
  y : JVal
deriving DecidableEq, Repr

/-- One drawing command as returned by the external path normaliser
getPathData: a type tag string such as M, L, Z, A, C, Q and the list of
numeric parameters. -/
structure Cmd where
  type : String
  values : List JVal
deriving DecidableEq, Repr

/-- One entry of the strings list of the conversion result. -/
structure TextRec where
  text : String
  path : String
  fontSize : Option String
  fontFamily : Option String
deriving DecidableEq, Repr

/-- Model of one element of the parsed document tree.  `num name` models
parseFloat(element.attr(name)), which is NaN when the attribute is
missing or fails to parse; `attrS name` models element.attr(name) for
string-valued attributes (none models undefined).  For path elements,
`pathPolys` and `pathOpenData` carry the outputs of the external path
normaliser: the normalised commands of each close-terminated ring
matched by the source regex, and the normalised commands of the whole
d string. -/
structure Elem where
  nodeName : String
  num : String → JVal
  attrS : String → Option String
  pathPolys : List (List Cmd)
  pathOpenData : List Cmd

/-- The external collaborators of the core algorithm: the curve geometry
engine (total length of a synthesised one-command path, point at a given
length along it), the host trigonometry in degrees and square root used
by the circle and ellipse builders (host floating-point Math routines,
idealised as rational-valued functions), and the host text-geometry
queries used for text elements. -/
structure Engine where
  getTotalLength : String → ℚ
  getPointAtLength : String → JVal → Pt
  cosDeg : ℚ → ℚ
  sinDeg : ℚ → ℚ
  sqrtA : ℚ → ℚ
  piA : ℚ
  textData : Elem → Option TextRec

/-- JavaScript array indexing: out-of-range access yields undefined. -/
def getJS (vs : List JVal) (i : ℕ) : JVal := (vs.get? i).getD .undefined

/-- A DOMPointReadOnly constructor argument: an absent or undefined
coordinate defaults to 0. -/
def domCoord : JVal → JVal
  | .undefined => .val 0
  | v => v

/-- Model of ptFromValues: new DOMPointReadOnly(values[length - 2],
values[length - 1]).  Indexing below zero yields undefined, which the
DOMPoint constructor turns into the default 0. -/
def ptFromValues (vs : List JVal) : Pt :=
  { x := domCoord (if vs.length ≥ 2 then getJS vs (vs.length - 2) else .undefined)
    y := domCoord (if vs.length ≥ 1 then getJS vs (vs.length - 1) else .undefined) }

/-- Model of lineString: the comma-joined coordinate list in
parentheses, each Y negated. -/
def lineString (points : List Pt) : String :=
  "(" ++ joinSep "," (points.map (fun p => jstr p.x ++ " " ++ jstr (jneg p.y))) ++ ")"

/-- Model of circularString: a three-point CIRCULARSTRING fragment with
a space after each comma, each Y negated.  The coordinates are formatted
exactly as given, with no rounding. -/
def circularString (startPt midPt endPt : Pt) : String :=
  "CIRCULARSTRING(" ++ jstr startPt.x ++ " " ++ jstr (jneg startPt.y) ++ ", " ++
    jstr midPt.x ++ " " ++ jstr (jneg midPt.y) ++ ", " ++
    jstr endPt.x ++ " " ++ jstr (jneg endPt.y) ++ ")"

/-- The d string of the one-command path synthesised for a curve step:
M lastPt.x lastPt.y type values-joined-by-spaces. -/
def cmdPathData (lastPt : Pt) (step : Cmd) : String :=
  "M " ++ jstr lastPt.x ++ " " ++ jstr lastPt.y ++ " " ++ step.type ++ " " ++
    joinSep " " (step.values.map jstr)

/-- Model of interpolatedPoints: count = Math.round(length * DENSITY);
count + 1 samples are taken at positions (length * i) / count, and each
sampled coordinate is rounded to the configured precision.  When count
is 0 the single position computed is 0 / 0, which is NaN; no guard keeps
count at 1 or above. -/
def interpolatedPoints (eng : Engine) (prec : ℕ) (dens : ℚ) (pathStr : String) :
    List Pt :=
  let length := eng.getTotalLength pathStr
  let count : ℤ := jsMathRound (length * dens)
  (List.range (max 0 (count + 1)).toNat).map (fun i =>
    let pos : JVal := if count = 0 then .nan else .val (length * i / count)
    let point := eng.getPointAtLength pathStr pos
    { x := roundJ prec point.x, y := roundJ prec point.y })

/-- The loop state of curveString: the pending straight-point buffer,
the completed fragment list, the first point (unset until the first
command has been processed) and the current point (initially the
origin). -/
structure CSState where
  linePts : List Pt
  geometries : List String
  firstPt : Option Pt
  lastPt : Pt
deriving Repr

/-- One iteration of the curveString loop.  Z returns early (continue in
the source), so it neither advances the current point nor sets the first
point; every other command updates the current point when it carries at
least two parameters, and the first point is set after the first such
update. -/
def curveStep (eng : Engine) (prec : ℕ) (dens : ℚ) (s : CSState) (step : Cmd) :
    CSState :=
  if step.type == "Z" then
    match s.firstPt with
    | some f =>
      if jeq f.x s.lastPt.x && jeq f.y s.lastPt.y then s
      else { s with linePts := s.linePts ++ [f] }
    | none => s
  else
    let s1 : CSState :=
      if step.type == "M" then s
      else if step.type == "L" then
        { s with linePts :=
            (if s.linePts.isEmpty then [s.lastPt] else s.linePts) ++ [ptFromValues step.values] }
      else
        let pathData := cmdPathData s.lastPt step
        if step.type == "A" && jeq (getJS step.values 0) (getJS step.values 1) then
          { s with
            linePts := []
            geometries :=
              (if s.linePts.length > 0 then s.geometries ++ [lineString s.linePts]
               else s.geometries) ++
              [circularString s.lastPt
                (eng.getPointAtLength pathData (.val (eng.getTotalLength pathData / 2)))
                (ptFromValues step.values)] }
        else
          { s with linePts := s.linePts ++ interpolatedPoints eng prec dens pathData }
    let lp := if step.values.length ≥ 2 then ptFromValues step.values else s1.lastPt
    { s1 with
      lastPt := lp
      firstPt := match s1.firstPt with | none => some lp | some f => some f }

/-- Model of curveString: fold the commands through curveStep, flush a
final buffer holding more than one point, and return the comma-joined
fragments, or the literal " EMPTY" (leading space included) when no
fragment was produced. -/
def curveString (eng : Engine) (prec : ℕ) (dens : ℚ) (curves : List Cmd) : String :=
  let s := curves.foldl (curveStep eng prec dens)
    { linePts := [], geometries := [], firstPt := none, lastPt := { x := .val 0, y := .val 0 } }
  let gs := if s.linePts.length > 1 then s.geometries ++ [lineString s.linePts] else s.geometries
  if gs.isEmpty then " EMPTY" else joinSep "," gs

/-- Sum of a list of decimal digit characters read most significant
first; none when a non-digit occurs. -/
def allDigitsVal (cs : List Char) : Option ℕ :=
  cs.foldl
    (fun acc c =>
      match acc with
      | none => none
      | some n => if c.isDigit then some (n * 10 + (c.toNat - 48)) else none)
    (some 0)

/-- JavaScript ToNumber on a string, as triggered by the unary minus in
the polyline and polygon builders: the empty (or all-whitespace) string
is 0, an optionally signed decimal numeral is its value, anything else
is NaN.  Exponent, hexadecimal and Infinity forms do not occur in this
development and are modelled as NaN. -/
def jsToNumber (s : String) : JVal :=
  let t := s.trim
  if t = "" then .val 0
  else
    let sgn : ℚ := if t.startsWith "-" then -1 else 1
    let body := if t.startsWith "-" || t.startsWith "+" then t.drop 1 else t
    match body.splitOn "." with
    | [i] =>
      if i = "" then .nan
      else
        match allDigitsVal i.data with
        | some n => .val (sgn * n)
        | none => .nan
    | [i, f] =>
      if i = "" && f = "" then .nan
      else
        match allDigitsVal i.data, allDigitsVal f.data with
        | some n, some m => .val (sgn * ((n : ℚ) + (m : ℚ) / 10 ^ f.length))
        | _, _ => .nan
    | _ => .nan

/-- ToNumber applied to a possibly-undefined string: ToNumber(undefined)
is NaN. -/
def toNumberOpt : Option String → JVal
  | none => .nan
  | some s => jsToNumber s

/-- The shared points-attribute processing of the polyline and polygon
builders: split on spaces, split each pair on commas, overwrite the
second component with the negated numeric value (the first component
stays the raw attribute text), and join each pair with a space. -/
def polyPts (points : String) : List String :=
  (points.trim.splitOn " ").map (fun ptStr =>
    let comps := ptStr.splitOn ","
    let y := jstr (jneg (toNumberOpt (comps.get? 1)))
    joinSep " " (if comps.length ≥ 2 then comps.set 1 y else comps ++ [y]))

/-- Model of SVGtoWKT.polyline. -/
def polyline (points : String) : String :=
  "LINESTRING(" ++ joinSep "," (polyPts points) ++ ")"

/-- Model of SVGtoWKT.polygon: as polyline, then the first pair is
appended again before wrapping. -/
def polygon (points : String) : String :=
  let pts := polyPts points
  "POLYGON((" ++ joinSep "," (pts ++ [pts.headD ""]) ++ "))"

/-- Model of SVGtoWKT.line: the coordinates are formatted exactly as
given (no rounding), each Y negated. -/
def line (x1 y1 x2 y2 : JVal) : String :=
  "LINESTRING(" ++ jstr x1 ++ " " ++ jstr (jneg y1) ++ "," ++
    jstr x2 ++ " " ++ jstr (jneg y2) ++ ")"

/-- Model of SVGtoWKT.rect.  An argument that is not of number type
(undefined) is replaced by 0 for x and y; NaN is of number type for
underscore isNumber and is kept.  Width and height are used as given. -/
def rect (x y width height : JVal) : String :=
  let x := if isNumber x then x else .val 0
  let y := if isNumber y then y else .val 0
  let pts :=
    [jstr x ++ " " ++ jstr (jneg y),
     jstr (jadd x width) ++ " " ++ jstr (jneg y),
     jstr (jadd x width) ++ " " ++ jstr (jsub (jneg y) height),
     jstr x ++ " " ++ jstr (jsub (jneg y) height),
     jstr x ++ " " ++ jstr (jneg y)]
  "POLYGON((" ++ joinSep "," pts ++ "))"

/-- The five sample pairs of the circle builder, at angles 90 * i
degrees for i = 0..4, each coordinate rounded to the configured
precision and each Y negated.  The source converts the angle to radians
and calls the host Math.cos and Math.sin; those host routines are the
engine fields cosDeg and sinDeg, indexed here in degrees. -/
def circlePts (eng : Engine) (prec : ℕ) (cx cy r : JVal) : List String :=
  (List.range 5).map (fun i =>
    let x := roundJ prec (jadd cx (jmul r (.val (eng.cosDeg ((90 * i : ℕ) : ℚ)))))
    let y := roundJ prec (jadd cy (jmul r (.val (eng.sinDeg ((90 * i : ℕ) : ℚ)))))
    jstr x ++ " " ++ jstr (jneg y))

/-- Model of SVGtoWKT.circle. -/
def circle (eng : Engine) (prec : ℕ) (cx cy r : JVal) : String :=
  "CIRCULARSTRING(" ++ joinSep "," (circlePts eng prec cx cy r) ++ ")"

/-- Math.round lifted to numeric values, for the ellipse point count. -/
def jsMathRoundJ : JVal → JVal
  | .val q => .val (jsMathRound q)
  | _ => .nan

/-- Host Math.sqrt lifted to numeric values through the engine. -/
def jsqrt (eng : Engine) : JVal → JVal
  | .val q => .val (eng.sqrtA q)
  | _ => .nan

/-- Host cosine (in degrees) lifted to numeric values. -/
def jcosDeg (eng : Engine) : JVal → JVal
  | .val q => .val (eng.cosDeg q)
  | _ => .nan

/-- Host sine (in degrees) lifted to numeric values. -/
def jsinDeg (eng : Engine) : JVal → JVal
  | .val q => .val (eng.sinDeg q)
  | _ => .nan

/-- Model of SVGtoWKT.ellipse: circumference approximated as
2 * pi * sqrt((rx^2 + ry^2) / 2), point count Math.round(circumference *
DENSITY); the underscore times call throws a RangeError when the count
is NaN (none).  Points are sampled every 360 / count degrees, rounded,
the ring is closed by repeating the first point (an empty sample list
contributes the empty string, as Array join renders undefined). -/
def ellipse (eng : Engine) (prec : ℕ) (dens : ℚ) (cx cy rx ry : JVal) :
    Option String :=
  let circumference :=
    jmul (jmul (.val 2) (.val eng.piA))
      (jsqrt eng (jmul (jadd (jmul rx rx) (jmul ry ry)) (.val (1 / 2))))
  match jsMathRoundJ (jmul circumference (.val dens)) with
  | .val c =>
    let n := (max 0 ⌊c⌋).toNat
    let interval : JVal := if c = 0 then .nan else .val (360 / c)
    let pts := (List.range n).map (fun i =>
      let ang := jmul interval (.val i)
      let x := roundJ prec (jadd cx (jmul rx (jcosDeg eng ang)))
      let y := roundJ prec (jadd cy (jmul ry (jsinDeg eng ang)))
      jstr x ++ " " ++ jstr (jneg y))
    some ("POLYGON((" ++ joinSep "," (pts ++ [pts.headD ""]) ++ "))")
  | _ => none

/-- The closed-path branch of SVGtoWKT.path, applied to the normalised
commands of each close-terminated ring.  Each ring text is wrapped in
COMPOUNDCURVE when the ring holds an arc and some command that is
neither M, A nor Z; the whole path becomes CURVEPOLYGON when any ring
holds an arc, otherwise LINESTRING EMPTY when any ring has fewer than 5
commands, otherwise POLYGON. -/
def pathClosed (eng : Engine) (prec : ℕ) (dens : ℚ) (polys : List (List Cmd)) :
    String :=
  let parts := polys.map (fun poly =>
    let curve := curveString eng prec dens poly
    if poly.any (fun p => p.type == "A") &&
        poly.any (fun p => !(["M", "A", "Z"].contains p.type)) then
      "COMPOUNDCURVE(" ++ curve ++ ")"
    else curve)
  if polys.any (fun p => p.any (fun c => c.type == "A")) then
    "CURVEPOLYGON(" ++ joinSep "," parts ++ ")"
  else if polys.any (fun p => decide (p.length < 5)) then "LINESTRING EMPTY"
  else "POLYGON(" ++ joinSep "," parts ++ ")"

/-- The grouping loop of the open-path branch: a new group starts at
each M; any other command is pushed onto the last group.  When the first
command is not an M there is no last group and the source throws a
TypeError (none). -/
def groupCmds : List Cmd → List (List Cmd) → Option (List (List Cmd))
  | [], acc => some acc
  | c :: rest, acc =>
    if c.type == "M" then groupCmds rest (acc ++ [[c]])
    else
      match acc with
      | [] => none
      | _ => groupCmds rest (acc.dropLast ++ [acc.getLastD [] ++ [c]])

/-- The open-path branch of SVGtoWKT.path, applied to the normalised
commands of the whole d string: groups are split into arc-free and
arc-bearing; more than one arc-free group emits one MULTILINESTRING,
exactly one emits LINESTRING; every arc-bearing group emits its own
COMPOUNDCURVE; the fragments are comma-joined as siblings. -/
def pathOpen (eng : Engine) (prec : ℕ) (dens : ℚ) (data : List Cmd) :
    Option String :=
  match groupCmds data [] with
  | none => none
  | some curveGroups =>
    let multiLines := curveGroups.filter (fun g => !g.any (fun c => c.type == "A"))
    let compoundCurves := curveGroups.filter (fun g => g.any (fun c => c.type == "A"))
    let geometry :=
      (if multiLines.length > 1 then
        ["MULTILINESTRING(" ++ joinSep "," (multiLines.map (curveString eng prec dens)) ++ ")"]
      else if multiLines.length > 0 then
        ["LINESTRING" ++ curveString eng prec dens (multiLines.headD [])]
      else []) ++
      compoundCurves.map (fun g => "COMPOUNDCURVE(" ++ curveString eng prec dens g ++ ")")
    some (joinSep "," geometry)

/-- Model of SVGtoWKT.path after the external steps: the arc-flag
pre-fix and the regex ring split act on the raw d string upstream, and
the external normaliser getPathData produces `polys` (one command list
per matched close-terminated ring) and `openData` (the commands of the
whole d string, used only when no ring matched). -/
def path (eng : Engine) (prec : ℕ) (dens : ℚ) (polys : List (List Cmd))
    (openData : List Cmd) : Option String :=
  if polys.isEmpty then pathOpen eng prec dens openData
  else some (pathClosed eng prec dens polys)

/-- Model of createWKT: dispatch on the node name.  A missing points or
d attribute makes the builder dereference undefined and throw (none);
unsupported tags yield the EMPTY literal. -/
def createWKT (eng : Engine) (prec : ℕ) (dens : ℚ) (e : Elem) : Option String :=
  match e.nodeName with
  | "polygon" => (e.attrS "points").map polygon
  | "polyline" => (e.attrS "points").map polyline
  | "line" => some (line (e.num "x1") (e.num "y1") (e.num "x2") (e.num "y2"))
  | "rect" => some (rect (e.num "x") (e.num "y") (e.num "width") (e.num "height"))
  | "circle" => some (circle eng prec (e.num "cx") (e.num "cy") (e.num "r"))
  | "ellipse" => ellipse eng prec dens (e.num "cx") (e.num "cy") (e.num "rx") (e.num "ry")
  | "path" =>
    match e.attrS "d" with
    | none => none
    | some _ => path eng prec dens e.pathPolys e.pathOpenData
  | _ => some "EMPTY"

/-- The fixed tag iteration order of convert. -/
def tagOrder : List String :=
  ["polygon", "polyline", "line", "rect", "circle", "ellipse", "path"]

/-- The element sequence convert actually visits: for each tag in the
fixed order, the elements of that tag in document order (the document is
modelled as its flat element list in document order, and
getElementsByTagName as the filter by node name). -/
def orderedShapeElems (doc : List Elem) : List Elem :=
  tagOrder.flatMap (fun t => doc.filter (fun e => e.nodeName == t))

/-- The els collection loop of convert, as written: an outer fold over
the tags and an inner fold over the matching elements, pushing each
fragment; an exception from createWKT aborts the whole conversion. -/
def convertEls (eng : Engine) (prec : ℕ) (dens : ℚ) (doc : List Elem) :
    Option (List String) :=
  tagOrder.foldlM
    (fun acc t =>
      (doc.filter (fun e => e.nodeName == t)).foldlM
        (fun acc2 e => (createWKT eng prec dens e).map (fun w => acc2 ++ [w]))
        acc)
    []

/-- The detail field of the conversion result. -/
def convertDetail (eng : Engine) (prec : ℕ) (dens : ℚ) (doc : List Elem) :
    Option String :=
  (convertEls eng prec dens doc).map
    (fun els => "GEOMETRYCOLLECTION(" ++ joinSep "," els ++ ")")

/-- One entry of the spaces list of the conversion result. -/
structure SpaceRec where
  id : String
  title : Option String
  space : String
deriving DecidableEq, Repr

/-- The conversion result record (its serialisation to a wire format is
outside the model). -/
structure Response where
  detail : String
  spaces : List SpaceRec
  strings : List TextRec
deriving DecidableEq, Repr

/-- The state outside one convert call that the source touches: the
children appended to document.body, the global response binding the
source assigns without declaration, and the process-wide PRECISION and
DENSITY configuration. -/
structure Host where
  body : List (List Elem)
  responseG : Option Response
  precision : ℕ
  density : ℚ

/-- Model of SVGtoWKT.convert on an already-parsed document (markup
parsing is external; empty or malformed markup throws upstream of this
model).  The parsed root is adopted and appended to document.body before
any element is visited; the recognised shapes are collected in tag-major
order; every element with an id attribute contributes a spaces entry via
the same dispatch; text elements contribute strings entries through the
host text-geometry engine; the response record is assigned to the
undeclared global response and returned. -/
def convertM (eng : Engine) (h : Host) (doc : List Elem) :
    Option (Host × Response) :=
  let h1 : Host := { h with body := h.body ++ [doc] }
  match convertEls eng h.precision h.density doc with
  | none => none
  | some els =>
    match (doc.filter (fun e => (e.attrS "id").isSome)).mapM
        (fun e => (createWKT eng h.precision h.density e).map
          (fun w => SpaceRec.mk ((e.attrS "id").getD "") (e.attrS "title") w)) with
    | none => none
    | some spaces =>
      let strings := (doc.filter (fun e => e.nodeName == "text")).filterMap eng.textData
      let resp : Response :=
        { detail := "GEOMETRYCOLLECTION(" ++ joinSep "," els ++ ")"
          spaces := spaces
          strings := strings }
      some ({ h1 with responseG := some resp }, resp)

/-- A concrete engine for closed evaluations: every synthesised path
has total length 4, every point query answers (1, 1.2345), and the trig
table holds the exact cosine and sine values at the quarter-turn
angles. -/
def engW : Engine where
  getTotalLength := fun _ => 4
  getPointAtLength := fun _ _ => { x := .val 1, y := .val (12345 / 10000) }
  cosDeg := fun q =>
    if q = 0 then 1 else if q = 90 then 0 else if q = 180 then -1
    else if q = 270 then 0 else if q = 360 then 1 else 0
  sinDeg := fun q =>
    if q = 0 then 0 else if q = 90 then 1 else if q = 180 then 0
    else if q = 270 then -1 else if q = 360 then 0 else 0
  sqrtA := fun _ => 0
  piA := 0
  textData := fun _ => none

/-- A concrete engine whose path length rounds to a zero sample count
and whose point query propagates NaN. -/
def engShort : Engine where
  getTotalLength := fun _ => 1 / 4
  getPointAtLength := fun _ _ => { x := .nan, y := .nan }
  cosDeg := fun _ => 0
  sinDeg := fun _ => 0
  sqrtA := fun _ => 0
  piA := 0
  textData := fun _ => none

/-- A host with an empty body, no global response, and the default
configuration PRECISION = 3, DENSITY = 1. -/
def host0 : Host where
  body := []
  responseG := none
  precision := 3
  density := 1

/-- A concrete rect element at (0,0) with width and height 1. -/
def elemRectW : Elem where
  nodeName := "rect"
  num := fun a =>
    if a = "x" then .val 0 else if a = "y" then .val 0
    else if a = "width" then .val 1 else if a = "height" then .val 1 else .nan
  attrS := fun _ => none
  pathPolys := []
  pathOpenData := []

/-- A concrete polygon element with three points. -/
def elemPolyW : Elem where
  nodeName := "polygon"
  num := fun _ => .nan
  attrS := fun a => if a = "points" then some "2,2 3,2 3,3" else none
  pathPolys := []
  pathOpenData := []

/-- A document holding a rect followed by a polygon, in that document
order. -/
def docCE : List Elem := [elemRectW, elemPolyW]

/-- The idealised behaviour of the host trigonometry at the five
quarter-turn angles the circle builder samples.  The floating-point
Math.cos and Math.sin return these values up to an error far below the
default rounding precision. -/
def exactQuarterTrig (eng : Engine) : Prop :=
  eng.cosDeg 0 = 1 ∧ eng.cosDeg 90 = 0 ∧ eng.cosDeg 180 = -1 ∧
  eng.cosDeg 270 = 0 ∧ eng.cosDeg 360 = 1 ∧
  eng.sinDeg 0 = 0 ∧ eng.sinDeg 90 = 1 ∧ eng.sinDeg 180 = 0 ∧
  eng.sinDeg 270 = -1 ∧ eng.sinDeg 360 = 0

theorem jsMathRound_intCast (n : ℤ) : jsMathRound (n : ℚ) = n := by
  unfold jsMathRound
  rw [Int.floor_eq_iff]
  constructor
  · norm_num
  · norm_num

theorem roundQ_idem (prec : ℕ) (v : ℚ) : roundQ prec (roundQ prec v) = roundQ prec v := by
  unfold roundQ
  have hR : ((10 : ℚ) ^ prec) ≠ 0 := pow_ne_zero _ (by norm_num)
  rw [div_mul_cancel₀ _ hR, jsMathRound_intCast]

theorem roundJ_idem (prec : ℕ) (v : JVal) : roundJ prec (roundJ prec v) = roundJ prec v := by
  cases v <;> simp [roundJ, roundQ_idem]


/-- C1: for a closed path (at least one close-terminated ring) in which
no ring contains an elliptical-arc command, the presence of any ring
with fewer than 5 raw commands makes the whole path emit the sentinel
LINESTRING EMPTY, discarding every other ring. -/
theorem c1_short_ring_sentinel (eng : Engine) (prec : ℕ) (dens : ℚ)
    (polys : List (List Cmd)) (openData : List Cmd)
    (hne : polys ≠ [])
    (hnoarc : ∀ ring ∈ polys, ∀ c ∈ ring, c.type ≠ "A")
    (hshort : ∃ ring ∈ polys, ring.length < 5) :
    path eng prec dens polys openData = some "LINESTRING EMPTY" := by
  unfold path
  rw [if_neg (by simpa [List.isEmpty_iff] using hne)]
  unfold pathClosed
  have hA : (polys.any (fun p => p.any (fun c => c.type == "A"))) = false := by
    simp only [List.any_eq_false, Bool.not_eq_true, beq_iff_eq]
    intro p hp c hc
    exact hnoarc p hp c hc
  have h5 : (polys.any (fun p => decide (p.length < 5))) = true := by
    simp only [List.any_eq_true]
    obtain ⟨r, hr, hlt⟩ := hshort
    exact ⟨r, hr, by simpa using hlt⟩
  simp [hA, h5]

/-- C1 witness: a single three-command arc-free ring (with a
well-formed second ring present) collapses the whole path. -/
theorem c1_short_ring_sentinel_witness :
    path engW 3 1
      [[⟨"M", [.val 0, .val 0]⟩, ⟨"L", [.val 1, .val 0]⟩, ⟨"Z", []⟩],
       [⟨"M", [.val 0, .val 0]⟩, ⟨"L", [.val 1, .val 0]⟩, ⟨"L", [.val 1, .val 1]⟩,
        ⟨"L", [.val 0, .val 1]⟩, ⟨"Z", []⟩]] [] = some "LINESTRING EMPTY" :=
  c1_short_ring_sentinel engW 3 1 _ []
    (by decide)
    (by decide)
    ⟨[⟨"M", [.val 0, .val 0]⟩, ⟨"L", [.val 1, .val 0]⟩, ⟨"Z", []⟩], by decide, by decide⟩

/-- C2: for an open path whose commands group successfully (the first
command is a MoveTo), more than one arc-free group yields a single
MULTILINESTRING wrapper holding all of them comma-joined, exactly one
yields LINESTRING, every arc-bearing group yields its own
COMPOUNDCURVE, and the top-level fragments are joined with commas as
sibling strings. -/
theorem c2_open_path_fragments (eng : Engine) (prec : ℕ) (dens : ℚ)
    (data : List Cmd) (groups : List (List Cmd))
    (hg : groupCmds data [] = some groups) :
    path eng prec dens [] data =
      some (joinSep ","
        ((if (groups.filter (fun g => !g.any (fun c => c.type == "A"))).length > 1 then
            ["MULTILINESTRING(" ++
              joinSep ","
                ((groups.filter (fun g => !g.any (fun c => c.type == "A"))).map
                  (curveString eng prec dens)) ++ ")"]
          else if (groups.filter (fun g => !g.any (fun c => c.type == "A"))).length > 0 then
            ["LINESTRING" ++ curveString eng prec dens
              ((groups.filter (fun g => !g.any (fun c => c.type == "A"))).headD [])]
          else []) ++
          (groups.filter (fun g => g.any (fun c => c.type == "A"))).map
            (fun g => "COMPOUNDCURVE(" ++ curveString eng prec dens g ++ ")"))) := by
  show pathOpen eng prec dens data = _
  unfold pathOpen
  rw [hg]

/-- C2 witness: two disjoint arc-free subpaths emit one MULTILINESTRING
holding both. -/
theorem c2_open_path_fragments_witness :
    path engW 3 1 []
      [⟨"M", [.val 0, .val 0]⟩, ⟨"L", [.val 1, .val 0]⟩,
       ⟨"M", [.val 5, .val 5]⟩, ⟨"L", [.val 6, .val 5]⟩] =
      some "MULTILINESTRING((0 0,1 0),(5 -5,6 -5))" := by
  have h := c2_open_path_fragments engW 3 1
    [⟨"M", [.val 0, .val 0]⟩, ⟨"L", [.val 1, .val 0]⟩,
     ⟨"M", [.val 5, .val 5]⟩, ⟨"L", [.val 6, .val 5]⟩]
    [[⟨"M", [.val 0, .val 0]⟩, ⟨"L", [.val 1, .val 0]⟩],
     [⟨"M", [.val 5, .val 5]⟩, ⟨"L", [.val 6, .val 5]⟩]]
    (by decide)
  rw [h]
  rfl

/-- C3 counterexample: an arc-midpoint coordinate reaches the output
text unrounded.  With an engine whose point query answers
(1, 1.2345), the circular-arc branch emits the midpoint Y as -1.2345
even though rounding 1.2345 at the default precision 3 gives the
different value 1.235, refuting the claim that every arc-midpoint
coordinate is rounded before formatting. -/
theorem c3_midpoint_unrounded_counterexample :
    curveString engW 3 1
      [⟨"M", [.val 0, .val 0]⟩,
       ⟨"A", [.val 1, .val 1, .val 0, .val 0, .val 0, .val 2, .val 0]⟩] =
      "CIRCULARSTRING(0 0, 1 -1.2345, 2 0)" ∧
    roundQ 3 (12345 / 10000) = 247 / 200 ∧
    (247 / 200 : ℚ) ≠ 12345 / 10000 := by
  refine ⟨by with_unfolding_all rfl, by with_unfolding_all rfl, by with_unfolding_all decide⟩

/-- C3 amended: coordinates produced by curve sampling are rounded to
the configured precision before formatting (hence are fixed points of
the rounding), but the three points of an arc fragment, the midpoint
obtained from the arc-midpoint query included, are formatted exactly as
given with no rounding; coordinates copied from shape attributes are
formatted verbatim as well; every emitted coordinate negates Y. -/
theorem c3_rounding_policy :
    (∀ (eng : Engine) (prec : ℕ) (dens : ℚ) (ps : String) (p : Pt),
      p ∈ interpolatedPoints eng prec dens ps →
        roundJ prec p.x = p.x ∧ roundJ prec p.y = p.y) ∧
    (∀ s m e : Pt,
      circularString s m e =
        "CIRCULARSTRING(" ++ jstr s.x ++ " " ++ jstr (jneg s.y) ++ ", " ++
          jstr m.x ++ " " ++ jstr (jneg m.y) ++ ", " ++
          jstr e.x ++ " " ++ jstr (jneg e.y) ++ ")") ∧
    (∀ pts : List Pt,
      lineString pts =
        "(" ++ joinSep "," (pts.map (fun p => jstr p.x ++ " " ++ jstr (jneg p.y))) ++ ")") ∧
    (∀ x1 y1 x2 y2 : JVal,
      line x1 y1 x2 y2 =
        "LINESTRING(" ++ jstr x1 ++ " " ++ jstr (jneg y1) ++ "," ++
          jstr x2 ++ " " ++ jstr (jneg y2) ++ ")") := by
  refine ⟨?_, fun s m e => rfl, fun pts => rfl, fun x1 y1 x2 y2 => rfl⟩
  intro eng prec dens ps p hp
  simp only [interpolatedPoints, List.mem_map] at hp
  obtain ⟨i, _, hpe⟩ := hp
  refine ⟨?_, ?_⟩ <;> rw [← hpe] <;> simp [roundJ_idem]

/-- C3 witness: the sampling clause applied to a concrete engine and
point: the sample (1, 1.235) is already rounded at precision 3. -/
theorem c3_rounding_policy_witness :
    roundJ 3 (Pt.mk (.val 1) (.val (247 / 200))).x = (Pt.mk (.val 1) (.val (247 / 200))).x ∧
    roundJ 3 (Pt.mk (.val 1) (.val (247 / 200))).y = (Pt.mk (.val 1) (.val (247 / 200))).y :=
  c3_rounding_policy.1 engW 3 1 "p" (Pt.mk (.val 1) (.val (247 / 200)))
    (by with_unfolding_all decide)

/-- C4: for numeric inputs the rect builder returns exactly the
5-point closed ring POLYGON((x -y,x+w -y,x+w -y-h,x -y-h,x -y)), each Y
negated and the first point repeated as the last. -/
theorem c4_rect_formula (x y w h : ℚ) :
    rect (.val x) (.val y) (.val w) (.val h) =
      "POLYGON((" ++ decStr x ++ " " ++ decStr (-y) ++ "," ++
        decStr (x + w) ++ " " ++ decStr (-y) ++ "," ++
        decStr (x + w) ++ " " ++ decStr (-y - h) ++ "," ++
        decStr x ++ " " ++ decStr (-y - h) ++ "," ++
        decStr x ++ " " ++ decStr (-y) ++ "))" := by
  simp [rect, isNumber, jadd, jneg, jsub, jstr, joinSep, String.append_assoc]

/-- C5 counterexample: a non-numeric parse result (NaN, which is what
parseFloat returns for a missing or malformed attribute) is not
substituted by 0: rect with x = NaN differs from rect with x = 0. -/
theorem c5_nan_not_substituted_counterexample :
    rect .nan (.val 0) (.val 1) (.val 1) ≠ rect (.val 0) (.val 0) (.val 1) (.val 1) := by
  with_unfolding_all decide

/-- C5 amended: only a missing (undefined) x or y is substituted by 0
before the ring is built; a NaN produced by a failed numeric parse is of
number type for the underscore isNumber guard, is kept, and propagates
as NaN tokens into the output; width and height are used as given. -/
theorem c5_default_substitution :
    (∀ y w h : JVal, rect .undefined y w h = rect (.val 0) y w h) ∧
    (∀ x w h : JVal, rect x .undefined w h = rect x (.val 0) w h) ∧
    rect .nan (.val 0) (.val 1) (.val 1) =
      "POLYGON((NaN 0,NaN 0,NaN -1,NaN -1,NaN 0))" :=
  ⟨fun y w h => by simp [rect, isNumber],
   fun x w h => by simp [rect, isNumber],
   by with_unfolding_all rfl⟩

/-- C9: the source rounding is idempotent: for every value and every
precision setting, rounding an already-rounded value again at the same
precision returns it unchanged. -/
theorem c9_round_idempotent (prec : ℕ) (v : ℚ) :
    roundQ prec (roundQ prec v) = roundQ prec v :=
  roundQ_idem prec v

/-- C6: the circle builder yields exactly 5 coordinate pairs, sampled
at 0, 90, 180, 270 and 360 degrees with each coordinate rounded to the
configured precision, the first pair equal to the last, wrapped as
CIRCULARSTRING(...); in particular Circle(0,0,5) at the default
precision 3 returns CIRCULARSTRING(5 0,0 -5,-5 0,0 5,5 0). -/
theorem c6_circle_five_points (eng : Engine) (prec : ℕ) (cx cy r : JVal)
    (h : exactQuarterTrig eng) :
    (circlePts eng prec cx cy r).length = 5 ∧
    (circlePts eng prec cx cy r).head? = (circlePts eng prec cx cy r).getLast? ∧
    circle eng prec cx cy r =
      "CIRCULARSTRING(" ++ joinSep "," (circlePts eng prec cx cy r) ++ ")" ∧
    circle eng 3 (.val 0) (.val 0) (.val 5) =
      "CIRCULARSTRING(5 0,0 -5,-5 0,0 5,5 0)" := by
  obtain ⟨hc0, hc90, hc180, hc270, hc360, hs0, hs90, hs180, hs270, hs360⟩ := h
  have hr5 : List.range 5 = [0, 1, 2, 3, 4] := rfl
  have hpts : ∀ prec2 cx2 cy2 r2, circlePts eng prec2 cx2 cy2 r2 =
      [jstr (roundJ prec2 (jadd cx2 (jmul r2 (.val 1)))) ++ " " ++
         jstr (jneg (roundJ prec2 (jadd cy2 (jmul r2 (.val 0))))),
       jstr (roundJ prec2 (jadd cx2 (jmul r2 (.val 0)))) ++ " " ++
         jstr (jneg (roundJ prec2 (jadd cy2 (jmul r2 (.val 1))))),
       jstr (roundJ prec2 (jadd cx2 (jmul r2 (.val (-1))))) ++ " " ++
         jstr (jneg (roundJ prec2 (jadd cy2 (jmul r2 (.val 0))))),
       jstr (roundJ prec2 (jadd cx2 (jmul r2 (.val 0)))) ++ " " ++
         jstr (jneg (roundJ prec2 (jadd cy2 (jmul r2 (.val (-1)))))),
       jstr (roundJ prec2 (jadd cx2 (jmul r2 (.val 1)))) ++ " " ++
         jstr (jneg (roundJ prec2 (jadd cy2 (jmul r2 (.val 0)))))] := by
    intro prec2 cx2 cy2 r2
    unfold circlePts
    rw [hr5]
    simp only [List.map_cons, List.map_nil]
    norm_num [hc0, hc90, hc180, hc270, hc360, hs0, hs90, hs180, hs270, hs360]
  refine ⟨by rw [hpts]; rfl, by rw [hpts]; rfl, rfl, ?_⟩
  show "CIRCULARSTRING(" ++ joinSep "," (circlePts eng 3 (.val 0) (.val 0) (.val 5)) ++ ")" = _
  rw [hpts]
  with_unfolding_all rfl

/-- C6 witness: the theorem applied to the concrete exact-trig engine. -/
theorem c6_circle_five_points_witness :
    (circlePts engW 3 (.val 0) (.val 0) (.val 5)).length = 5 ∧
    (circlePts engW 3 (.val 0) (.val 0) (.val 5)).head? =
      (circlePts engW 3 (.val 0) (.val 0) (.val 5)).getLast? ∧
    circle engW 3 (.val 0) (.val 0) (.val 5) =
      "CIRCULARSTRING(" ++ joinSep "," (circlePts engW 3 (.val 0) (.val 0) (.val 5)) ++ ")" ∧
    circle engW 3 (.val 0) (.val 0) (.val 5) =
      "CIRCULARSTRING(5 0,0 -5,-5 0,0 5,5 0)" :=
  c6_circle_five_points engW 3 (.val 0) (.val 0) (.val 5)
    (by refine ⟨?_, ?_, ?_, ?_, ?_, ?_, ?_, ?_, ?_, ?_⟩ <;> with_unfolding_all decide)

/-- C10: when the total length of a synthesised curve segment times
DENSITY rounds to a point count of 0, the single sample position
computed is 0 / 0, NaN; the sampler queries the geometry engine at that
NaN position with no guard clamping the count to 1, and whenever the
engine propagates NaN the resulting sample coordinates are NaN. -/
theorem c10_zero_count_nan_sample (eng : Engine) (prec : ℕ) (dens : ℚ)
    (ps : String) (h0 : jsMathRound (eng.getTotalLength ps * dens) = 0) :
    interpolatedPoints eng prec dens ps =
      [{ x := roundJ prec (eng.getPointAtLength ps .nan).x,
         y := roundJ prec (eng.getPointAtLength ps .nan).y }] ∧
    (eng.getPointAtLength ps .nan = { x := .nan, y := .nan } →
      interpolatedPoints eng prec dens ps = [{ x := .nan, y := .nan }]) := by
  have key : interpolatedPoints eng prec dens ps =
      [{ x := roundJ prec (eng.getPointAtLength ps .nan).x,
         y := roundJ prec (eng.getPointAtLength ps .nan).y }] := by
    simp only [interpolatedPoints]
    rw [h0]
    rfl
  exact ⟨key, fun hp => by rw [key, hp]; rfl⟩

/-- C10 witness: a concrete engine whose quarter-unit length rounds to
a zero count and whose point query propagates NaN produces the single
NaN sample. -/
theorem c10_zero_count_nan_sample_witness :
    interpolatedPoints engShort 3 1 "p" = [{ x := .nan, y := .nan }] :=
  (c10_zero_count_nan_sample engShort 3 1 "p" (by with_unfolding_all rfl)).2 rfl

theorem foldlM_push {α β : Type} (f : α → Option β) (l : List α) :
    ∀ acc : List β,
      l.foldlM (fun a x => (f x).map (fun w => a ++ [w])) acc =
        (l.mapM f).map (fun ws => acc ++ ws) := by
  induction l with
  | nil => intro acc; rw [List.mapM_nil]; simp
  | cons x xs ih =>
    intro acc
    rw [List.foldlM_cons, List.mapM_cons]
    cases f x with
    | none => simp
    | some w =>
      simp only [Option.map_some', Option.some_bind, bind_pure_comp]
      rw [show ((some (acc ++ [w]) : Option (List β)) >>= fun b =>
          xs.foldlM (fun a x => (f x).map (fun w => a ++ [w])) b) =
          xs.foldlM (fun a x => (f x).map (fun w => a ++ [w])) (acc ++ [w]) from rfl]
      rw [ih (acc ++ [w])]
      cases xs.mapM f with
      | none => simp
      | some ws => simp

theorem convertEls_eq (eng : Engine) (prec : ℕ) (dens : ℚ) (doc : List Elem) :
    convertEls eng prec dens doc =
      (orderedShapeElems doc).mapM (createWKT eng prec dens) := by
  have main : ∀ (tags : List String) (acc : List String),
      tags.foldlM
        (fun acc t =>
          (doc.filter (fun e => e.nodeName == t)).foldlM
            (fun acc2 e => (createWKT eng prec dens e).map (fun w => acc2 ++ [w])) acc)
        acc =
      ((tags.flatMap (fun t => doc.filter (fun e => e.nodeName == t))).mapM
          (createWKT eng prec dens)).map (fun ws => acc ++ ws) := by
    intro tags
    induction tags with
    | nil => intro acc; simp only [List.flatMap_nil, List.mapM_nil, List.foldlM_nil]; simp
    | cons t ts ih =>
      intro acc
      rw [List.foldlM_cons, List.flatMap_cons, List.mapM_append, foldlM_push]
      cases (doc.filter (fun e => e.nodeName == t)).mapM (createWKT eng prec dens) with
      | none => simp
      | some ws =>
        simp only [Option.map_some', Option.some_bind, bind_pure_comp]
        rw [show ((some (acc ++ ws) : Option (List String)) >>= fun b =>
            ts.foldlM (fun acc t =>
              (doc.filter (fun e => e.nodeName == t)).foldlM
                (fun acc2 e => (createWKT eng prec dens e).map (fun w => acc2 ++ [w])) acc) b) =
            ts.foldlM (fun acc t =>
              (doc.filter (fun e => e.nodeName == t)).foldlM
                (fun acc2 e => (createWKT eng prec dens e).map (fun w => acc2 ++ [w])) acc)
              (acc ++ ws) from rfl]
        rw [ih (acc ++ ws)]
        cases (ts.flatMap (fun t => doc.filter (fun e => e.nodeName == t))).mapM
            (createWKT eng prec dens) with
        | none => simp
        | some rest => simp
  unfold convertEls orderedShapeElems
  rw [main tagOrder []]
  cases (tagOrder.flatMap (fun t => doc.filter (fun e => e.nodeName == t))).mapM
      (createWKT eng prec dens) with
  | none => simp
  | some els => simp

/-- C7 counterexample: for a document holding a rect element followed
by a polygon element, the detail field of the conversion result places
the polygon fragment first (tag-major order), which differs from the
GEOMETRYCOLLECTION built from the fragments in document order. -/
theorem c7_tag_order_counterexample :
    (convertM engW host0 docCE).map (fun r => r.2.detail) =
      some "GEOMETRYCOLLECTION(POLYGON((2 -2,3 -2,3 -3,2 -2)),POLYGON((0 0,1 0,1 -1,0 -1,0 0)))" ∧
    (docCE.mapM (createWKT engW 3 1)).map
        (fun els => "GEOMETRYCOLLECTION(" ++ joinSep "," els ++ ")") =
      some "GEOMETRYCOLLECTION(POLYGON((0 0,1 0,1 -1,0 -1,0 0)),POLYGON((2 -2,3 -2,3 -3,2 -2)))" ∧
    (convertM engW host0 docCE).map (fun r => r.2.detail) ≠
      (docCE.mapM (createWKT engW 3 1)).map
        (fun els => "GEOMETRYCOLLECTION(" ++ joinSep "," els ++ ")") := by
  refine ⟨by with_unfolding_all rfl, by with_unfolding_all rfl, ?_⟩
  intro hcontra
  rw [show (convertM engW host0 docCE).map (fun r => r.2.detail) =
      some "GEOMETRYCOLLECTION(POLYGON((2 -2,3 -2,3 -3,2 -2)),POLYGON((0 0,1 0,1 -1,0 -1,0 0)))"
      from by with_unfolding_all rfl,
    show (docCE.mapM (createWKT engW 3 1)).map
        (fun els => "GEOMETRYCOLLECTION(" ++ joinSep "," els ++ ")") =
      some "GEOMETRYCOLLECTION(POLYGON((0 0,1 0,1 -1,0 -1,0 0)),POLYGON((2 -2,3 -2,3 -3,2 -2)))"
      from by with_unfolding_all rfl] at hcontra
  exact absurd hcontra (by decide)

/-- C7 amended: the detail field is GEOMETRYCOLLECTION(...) holding one
WKT fragment per recognised shape element, but the fragments appear
grouped by tag in the fixed iteration order polygon, polyline, line,
rect, circle, ellipse, path, in document order only within each tag;
and the detail of a successful conversion result is exactly this
string. -/
theorem c7_detail_tag_major_order (eng : Engine) (prec : ℕ) (dens : ℚ)
    (doc : List Elem) :
    convertDetail eng prec dens doc =
      ((orderedShapeElems doc).mapM (createWKT eng prec dens)).map
        (fun els => "GEOMETRYCOLLECTION(" ++ joinSep "," els ++ ")") ∧
    ∀ (h : Host) (r : Host × Response), convertM eng h doc = some r →
      some r.2.detail = convertDetail eng h.precision h.density doc := by
  constructor
  · unfold convertDetail
    rw [convertEls_eq]
  · intro h r hr
    unfold convertM at hr
    split at hr
    · exact absurd hr (by simp)
    · rename_i els hels
      split at hr
      · exact absurd hr (by simp)
      · rename_i spaces hspaces
        rw [Option.some_inj] at hr
        subst hr
        unfold convertDetail
        rw [hels]
        rfl

/-- C7 witness: the amended order statement evaluated on the concrete
two-element document. -/
theorem c7_detail_tag_major_order_witness :
    some "GEOMETRYCOLLECTION(POLYGON((2 -2,3 -2,3 -3,2 -2)),POLYGON((0 0,1 0,1 -1,0 -1,0 0)))" =
      convertDetail engW 3 1 docCE :=
  (c7_detail_tag_major_order engW 3 1 docCE).2 host0
    ({ body := [docCE],
       responseG := some
         { detail := "GEOMETRYCOLLECTION(POLYGON((2 -2,3 -2,3 -3,2 -2)),POLYGON((0 0,1 0,1 -1,0 -1,0 0)))"
           spaces := []
           strings := [] }
       precision := 3
       density := 1 },
     { detail := "GEOMETRYCOLLECTION(POLYGON((2 -2,3 -2,3 -3,2 -2)),POLYGON((0 0,1 0,1 -1,0 -1,0 0)))"
       spaces := []
       strings := [] })
    (by with_unfolding_all rfl)

/-- C8 counterexample: convert does not leave caller state unchanged;
already on the empty document it appends the adopted root to
document.body (and stores the response in the undeclared global), so the
resulting host differs from the initial one. -/
theorem c8_mutation_counterexample :
    ¬ ∀ r : Host × Response, convertM engW host0 [] = some r → r.1 = host0 := by
  intro hall
  have h1 := hall
    ({ body := [[]],
       responseG := some { detail := "GEOMETRYCOLLECTION()", spaces := [], strings := [] },
       precision := 3, density := 1 },
     { detail := "GEOMETRYCOLLECTION()", spaces := [], strings := [] })
    (by with_unfolding_all rfl)
  have h2 := congrArg Host.body h1
  simp [host0] at h2

/-- C8 amended: a successful convert changes caller state exactly by
appending the parsed root to document.body and assigning the response
record to the undeclared global response binding; the PRECISION and
DENSITY configuration is read, never written. -/
theorem c8_state_effects (eng : Engine) (h : Host) (doc : List Elem)
    (r : Host × Response) (hr : convertM eng h doc = some r) :
    r.1.body = h.body ++ [doc] ∧ r.1.responseG = some r.2 ∧
    r.1.precision = h.precision ∧ r.1.density = h.density := by
  unfold convertM at hr
  split at hr
  · exact absurd hr (by simp)
  · split at hr
    · exact absurd hr (by simp)
    · rw [Option.some_inj] at hr
      subst hr
      exact ⟨rfl, rfl, rfl, rfl⟩

/-- C8 witness: the amended effect statement evaluated on the empty
document. -/
theorem c8_state_effects_witness :
    ({ body := [[]],
       responseG := some { detail := "GEOMETRYCOLLECTION()", spaces := [], strings := [] },
       precision := 3, density := 1 } : Host).body = host0.body ++ [([] : List Elem)] ∧
    ({ body := [[]],
       responseG := some { detail := "GEOMETRYCOLLECTION()", spaces := [], strings := [] },
       precision := 3, density := 1 } : Host).responseG =
      some { detail := "GEOMETRYCOLLECTION()", spaces := [], strings := [] } ∧
    ({ body := [[]],
       responseG := some { detail := "GEOMETRYCOLLECTION()", spaces := [], strings := [] },
       precision := 3, density := 1 } : Host).precision = host0.precision ∧
    ({ body := [[]],
       responseG := some { detail := "GEOMETRYCOLLECTION()", spaces := [], strings := [] },
       precision := 3, density := 1 } : Host).density = host0.density :=
  c8_state_effects engW host0 []
    ({ body := [[]],
       responseG := some { detail := "GEOMETRYCOLLECTION()", spaces := [], strings := [] },
       precision := 3, density := 1 },
     { detail := "GEOMETRYCOLLECTION()", spaces := [], strings := [] })
    (by with_unfolding_all rfl)

end SVGtoWKT
